import Mathlib

/-!
Shallow embedding of the insurance cost-allocation core of `src/app.py`
(the "Estimate Cost" button handler): deductible application per fee
category, co-pay/co-insurance coverage of the residual, and aggregation
with the out-of-pocket cap.  Monetary amounts and rates are modelled as
exact rationals.
-/

namespace AppTestPoc

/-- Embeds `apply_deductible(cost, remaining_deductible)` from src/app.py
(lines 68-78).  Returns `(amount_applied, remaining_to_pay, remaining_deductible)`. -/
def apply_deductible (cost remaining_deductible : ℚ) : ℚ × ℚ × ℚ :=
  if remaining_deductible > cost then
    (cost, 0, remaining_deductible - cost)
  else
    (remaining_deductible, cost - remaining_deductible, 0)

/-- Embeds `calculate_insurance_coverage(remaining_cost)` from src/app.py
(lines 87-89).  The rates `co_pay` and `co_insurance` are the closed-over
plan parameters; returns `(covered, patient_out_of_pocket)`. -/
def calculate_insurance_coverage (co_pay co_insurance remaining_cost : ℚ) : ℚ × ℚ :=
  let covered := remaining_cost * (co_pay + co_insurance)
  (covered, remaining_cost - covered)

/-- The four itemized fees looked up for a procedure/ZIP row. -/
structure Fees where
  provider : ℚ
  facility : ℚ
  imaging : ℚ
  anesthesia : ℚ
  deriving DecidableEq

/-- The insurance plan parameters read from the selected plan row
(rates already divided by 100). -/
structure Plan where
  deductible_remaining : ℚ
  co_pay : ℚ
  co_insurance : ℚ
  out_of_pocket_max : ℚ
  deriving DecidableEq

/-- The per-category and total figures shown in the breakdown table
(src/app.py lines 96-107). -/
structure Breakdown where
  provider_deductible : ℚ
  facility_deductible : ℚ
  imaging_deductible : ℚ
  anesthesia_deductible : ℚ
  provider_covered : ℚ
  facility_covered : ℚ
  imaging_covered : ℚ
  anesthesia_covered : ℚ
  provider_out_of_pocket : ℚ
  facility_out_of_pocket : ℚ
  imaging_out_of_pocket : ℚ
  anesthesia_out_of_pocket : ℚ
  total_applied_to_deductible : ℚ
  total_covered_by_insurance : ℚ
  total_out_of_pocket : ℚ
  deriving DecidableEq

/-- Embeds the body of the `Estimate Cost` handler (src/app.py lines 66-100):
`remaining_deductible` is initialized from the plan, threaded through the four
`apply_deductible` calls in order provider, facility, imaging, anesthesia;
coverage is computed on each residual; totals are summed and the out-of-pocket
total is capped at `out_of_pocket_max`.  Returns the breakdown together with
the final value of the `remaining_deductible` variable. -/
def estimate_cost (fees : Fees) (plan : Plan) : Breakdown × ℚ :=
  let remaining_deductible := plan.deductible_remaining
  let sp := apply_deductible fees.provider remaining_deductible
  let sf := apply_deductible fees.facility sp.2.2
  let si := apply_deductible fees.imaging sf.2.2
  let sa := apply_deductible fees.anesthesia si.2.2
  let cp := calculate_insurance_coverage plan.co_pay plan.co_insurance sp.2.1
  let cf := calculate_insurance_coverage plan.co_pay plan.co_insurance sf.2.1
  let ci := calculate_insurance_coverage plan.co_pay plan.co_insurance si.2.1
  let ca := calculate_insurance_coverage plan.co_pay plan.co_insurance sa.2.1
  let total_applied_to_deductible := sp.1 + sf.1 + si.1 + sa.1
  let total_covered_by_insurance := cp.1 + cf.1 + ci.1 + ca.1
  let total_out_of_pocket := cp.2 + cf.2 + ci.2 + ca.2
  let total_out_of_pocket := min total_out_of_pocket plan.out_of_pocket_max
  (⟨sp.1, sf.1, si.1, sa.1,
    cp.1, cf.1, ci.1, ca.1,
    cp.2, cf.2, ci.2, ca.2,
    total_applied_to_deductible, total_covered_by_insurance, total_out_of_pocket⟩, sa.2.2)

/-- The script keeps `remaining_deductible` as a module-level variable; each
button press overwrites it with the plan's `deductible_remaining` (line 67)
before threading it.  This models one press as a transition on that variable:
whatever stale value it held is discarded. -/
def estimate_press (stale_remaining : ℚ) (fees : Fees) (plan : Plan) : Breakdown × ℚ :=
  estimate_cost fees plan

/-- **C1.** For every `cost ≥ 0` and `remaining_deductible ≥ 0`,
`apply_deductible` returns: if `remaining_deductible > cost` then
`(cost, 0, remaining_deductible - cost)`, otherwise
`(remaining_deductible, cost - remaining_deductible, 0)`; in particular at
the boundary `remaining_deductible = cost` the second branch is taken,
applying the full deductible with zero residual. -/
theorem apply_deductible_spec (cost rd : ℚ) (hc : 0 ≤ cost) (hd : 0 ≤ rd) :
    (if rd > cost then
        apply_deductible cost rd = (cost, 0, rd - cost)
      else
        apply_deductible cost rd = (rd, cost - rd, 0)) ∧
    (rd = cost → apply_deductible cost rd = (rd, 0, 0)) := by
  constructor
  · unfold apply_deductible
    split_ifs with h
    · rfl
    · rfl
  · intro h
    subst h
    unfold apply_deductible
    simp

/-- Witness for `apply_deductible_spec` at `cost = 5`, `rd = 5`. -/
theorem apply_deductible_spec_witness :
    (if (5 : ℚ) > 5 then
        apply_deductible 5 5 = (5, 0, (5 : ℚ) - 5)
      else
        apply_deductible 5 5 = (5, (5 : ℚ) - 5, 0)) ∧
    ((5 : ℚ) = 5 → apply_deductible 5 5 = (5, 0, 0)) :=
  apply_deductible_spec 5 5 (by norm_num) (by norm_num)

/-- **C2.** For every non-negative `cost` and `remaining_deductible`, the
outputs of `apply_deductible` satisfy `applied + residual = cost` and
`new_remaining = max 0 (remaining_deductible - cost)`. -/
theorem apply_deductible_conservation (cost rd : ℚ) (hc : 0 ≤ cost) (hd : 0 ≤ rd) :
    (apply_deductible cost rd).1 + (apply_deductible cost rd).2.1 = cost ∧
    (apply_deductible cost rd).2.2 = max 0 (rd - cost) := by
  unfold apply_deductible
  split_ifs with h
  · refine ⟨by ring, ?_⟩
    simp only [max_eq_right (by linarith : (0 : ℚ) ≤ rd - cost)]
  · refine ⟨by ring, ?_⟩
    simp only [max_eq_left (by linarith : rd - cost ≤ (0 : ℚ))]

/-- Witness for `apply_deductible_conservation` at `cost = 7`, `rd = 3`. -/
theorem apply_deductible_conservation_witness :
    (apply_deductible 7 3).1 + (apply_deductible 7 3).2.1 = (7 : ℚ) ∧
    (apply_deductible 7 3).2.2 = max 0 ((3 : ℚ) - 7) :=
  apply_deductible_conservation 7 3 (by norm_num) (by norm_num)

/-- **C3.** For every `residual ≥ 0` and rates in `[0,1]` with sum at most 1,
`calculate_insurance_coverage` returns `covered = residual * (co_pay + co_insurance)`
and `out_of_pocket = residual - covered`; hence the two sum to `residual` and
both are non-negative. -/
theorem calculate_insurance_coverage_spec (co_pay co_insurance residual : ℚ)
    (hr : 0 ≤ residual) (hp0 : 0 ≤ co_pay) (hp1 : co_pay ≤ 1)
    (hi0 : 0 ≤ co_insurance) (hi1 : co_insurance ≤ 1)
    (hsum : co_pay + co_insurance ≤ 1) :
    (calculate_insurance_coverage co_pay co_insurance residual).1 =
      residual * (co_pay + co_insurance) ∧
    (calculate_insurance_coverage co_pay co_insurance residual).2 =
      residual - (calculate_insurance_coverage co_pay co_insurance residual).1 ∧
    (calculate_insurance_coverage co_pay co_insurance residual).1 +
      (calculate_insurance_coverage co_pay co_insurance residual).2 = residual ∧
    0 ≤ (calculate_insurance_coverage co_pay co_insurance residual).1 ∧
    0 ≤ (calculate_insurance_coverage co_pay co_insurance residual).2 := by
  unfold calculate_insurance_coverage
  refine ⟨rfl, rfl, by ring, ?_, ?_⟩
  · positivity
  · have h : residual - residual * (co_pay + co_insurance) =
        residual * (1 - (co_pay + co_insurance)) := by ring
    simp only [h]
    have h1 : (0 : ℚ) ≤ 1 - (co_pay + co_insurance) := by linarith
    positivity

/-- Witness for `calculate_insurance_coverage_spec` at
`co_pay = 1/10`, `co_insurance = 1/10`, `residual = 300`. -/
theorem calculate_insurance_coverage_spec_witness :
    (calculate_insurance_coverage (1/10) (1/10) 300).1 =
      (300 : ℚ) * (1/10 + 1/10) ∧
    (calculate_insurance_coverage (1/10) (1/10) 300).2 =
      300 - (calculate_insurance_coverage (1/10) (1/10) 300).1 ∧
    (calculate_insurance_coverage (1/10) (1/10) 300).1 +
      (calculate_insurance_coverage (1/10) (1/10) 300).2 = (300 : ℚ) ∧
    0 ≤ (calculate_insurance_coverage ((1:ℚ)/10) (1/10) 300).1 ∧
    0 ≤ (calculate_insurance_coverage ((1:ℚ)/10) (1/10) 300).2 :=
  calculate_insurance_coverage_spec (1/10) (1/10) 300 (by norm_num) (by norm_num)
    (by norm_num) (by norm_num) (by norm_num) (by norm_num)

/-- **C4.** For every fee amount `≥ 0` processed by `apply_deductible` followed
by `calculate_insurance_coverage` on the residual, the per-item results satisfy
`applied + covered + out_of_pocket = amount`, whatever the deductible pool and
rates. -/
theorem item_conservation (co_pay co_insurance amount rd : ℚ) (ha : 0 ≤ amount) :
    (apply_deductible amount rd).1 +
      (calculate_insurance_coverage co_pay co_insurance
        (apply_deductible amount rd).2.1).1 +
      (calculate_insurance_coverage co_pay co_insurance
        (apply_deductible amount rd).2.1).2 = amount := by
  unfold apply_deductible calculate_insurance_coverage
  split_ifs with h <;> ring

/-- Witness for `item_conservation` at
`co_pay = 1/10`, `co_insurance = 1/10`, `amount = 500`, `rd = 200`. -/
theorem item_conservation_witness :
    (apply_deductible 500 200).1 +
      (calculate_insurance_coverage (1/10) (1/10)
        (apply_deductible 500 200).2.1).1 +
      (calculate_insurance_coverage (1/10) (1/10)
        (apply_deductible 500 200).2.1).2 = (500 : ℚ) :=
  item_conservation (1/10) (1/10) 500 200 (by norm_num)

/-- `apply_deductible` on an exhausted pool applies nothing and passes the
whole cost through as residual. -/
lemma apply_deductible_exhausted (c : ℚ) (hc : 0 ≤ c) :
    apply_deductible c 0 = (0, c, 0) := by
  unfold apply_deductible
  rw [if_neg (by linarith)]
  norm_num

/-- The pool after `apply_deductible` stays within `[0, rd]` and the applied
amount stays within `[0, cost]`. -/
lemma apply_deductible_pool_bounds (c r : ℚ) (hc : 0 ≤ c) (hr : 0 ≤ r) :
    0 ≤ (apply_deductible c r).2.2 ∧ (apply_deductible c r).2.2 ≤ r ∧
    0 ≤ (apply_deductible c r).1 ∧ (apply_deductible c r).1 ≤ c := by
  unfold apply_deductible
  split_ifs with h
  · exact ⟨by simp; linarith, by simp; linarith, by simpa using hc, by simp⟩
  · exact ⟨le_refl 0, hr, hr, by simpa using not_lt.mp h⟩

/-- **C5.** With an exhausted deductible, rates `co_pay = co_insurance = 1/10`,
four positive fees, and `out_of_pocket_max` below the naive per-item
out-of-pocket sum `(4/5)*(p+f+i+a)`: the aggregated total out-of-pocket is
`min` of the per-item sum and the cap, the per-category out-of-pocket figures
are left unchanged (they equal the raw coverage outputs), the total covered is
just the sum of per-item covered amounts (not recomputed under the cap), and
the returned total out-of-pocket equals `out_of_pocket_max` exactly. -/
theorem aggregation_cap (p f i a M : ℚ)
    (hp : 0 < p) (hf : 0 < f) (hi : 0 < i) (ha : 0 < a)
    (hM : M < (4/5) * (p + f + i + a)) :
    (estimate_cost ⟨p, f, i, a⟩ ⟨0, 1/10, 1/10, M⟩).1.total_out_of_pocket =
      min ((estimate_cost ⟨p, f, i, a⟩ ⟨0, 1/10, 1/10, M⟩).1.provider_out_of_pocket +
        (estimate_cost ⟨p, f, i, a⟩ ⟨0, 1/10, 1/10, M⟩).1.facility_out_of_pocket +
        (estimate_cost ⟨p, f, i, a⟩ ⟨0, 1/10, 1/10, M⟩).1.imaging_out_of_pocket +
        (estimate_cost ⟨p, f, i, a⟩ ⟨0, 1/10, 1/10, M⟩).1.anesthesia_out_of_pocket) M ∧
    (estimate_cost ⟨p, f, i, a⟩ ⟨0, 1/10, 1/10, M⟩).1.provider_out_of_pocket =
      (calculate_insurance_coverage (1/10) (1/10) p).2 ∧
    (estimate_cost ⟨p, f, i, a⟩ ⟨0, 1/10, 1/10, M⟩).1.facility_out_of_pocket =
      (calculate_insurance_coverage (1/10) (1/10) f).2 ∧
    (estimate_cost ⟨p, f, i, a⟩ ⟨0, 1/10, 1/10, M⟩).1.imaging_out_of_pocket =
      (calculate_insurance_coverage (1/10) (1/10) i).2 ∧
    (estimate_cost ⟨p, f, i, a⟩ ⟨0, 1/10, 1/10, M⟩).1.anesthesia_out_of_pocket =
      (calculate_insurance_coverage (1/10) (1/10) a).2 ∧
    (estimate_cost ⟨p, f, i, a⟩ ⟨0, 1/10, 1/10, M⟩).1.total_covered_by_insurance =
      (estimate_cost ⟨p, f, i, a⟩ ⟨0, 1/10, 1/10, M⟩).1.provider_covered +
        (estimate_cost ⟨p, f, i, a⟩ ⟨0, 1/10, 1/10, M⟩).1.facility_covered +
        (estimate_cost ⟨p, f, i, a⟩ ⟨0, 1/10, 1/10, M⟩).1.imaging_covered +
        (estimate_cost ⟨p, f, i, a⟩ ⟨0, 1/10, 1/10, M⟩).1.anesthesia_covered ∧
    (estimate_cost ⟨p, f, i, a⟩ ⟨0, 1/10, 1/10, M⟩).1.total_out_of_pocket = M := by
  have ep := apply_deductible_exhausted p hp.le
  have ef := apply_deductible_exhausted f hf.le
  have ei := apply_deductible_exhausted i hi.le
  have ea := apply_deductible_exhausted a ha.le
  simp only [estimate_cost, ep, ef, ei, ea, calculate_insurance_coverage]
  refine ⟨trivial, trivial, trivial, trivial, trivial, trivial, ?_⟩
  rw [min_eq_right]
  linarith

/-- Witness for `aggregation_cap` at `p = f = i = a = 300`, `M = 500`. -/
theorem aggregation_cap_witness :
    (estimate_cost ⟨300, 300, 300, 300⟩ ⟨0, 1/10, 1/10, 500⟩).1.total_out_of_pocket =
      min ((estimate_cost ⟨300, 300, 300, 300⟩ ⟨0, 1/10, 1/10, 500⟩).1.provider_out_of_pocket +
        (estimate_cost ⟨300, 300, 300, 300⟩ ⟨0, 1/10, 1/10, 500⟩).1.facility_out_of_pocket +
        (estimate_cost ⟨300, 300, 300, 300⟩ ⟨0, 1/10, 1/10, 500⟩).1.imaging_out_of_pocket +
        (estimate_cost ⟨300, 300, 300, 300⟩ ⟨0, 1/10, 1/10, 500⟩).1.anesthesia_out_of_pocket)
        500 ∧
    (estimate_cost ⟨300, 300, 300, 300⟩ ⟨0, 1/10, 1/10, 500⟩).1.provider_out_of_pocket =
      (calculate_insurance_coverage (1/10) (1/10) 300).2 ∧
    (estimate_cost ⟨300, 300, 300, 300⟩ ⟨0, 1/10, 1/10, 500⟩).1.facility_out_of_pocket =
      (calculate_insurance_coverage (1/10) (1/10) 300).2 ∧
    (estimate_cost ⟨300, 300, 300, 300⟩ ⟨0, 1/10, 1/10, 500⟩).1.imaging_out_of_pocket =
      (calculate_insurance_coverage (1/10) (1/10) 300).2 ∧
    (estimate_cost ⟨300, 300, 300, 300⟩ ⟨0, 1/10, 1/10, 500⟩).1.anesthesia_out_of_pocket =
      (calculate_insurance_coverage (1/10) (1/10) 300).2 ∧
    (estimate_cost ⟨300, 300, 300, 300⟩ ⟨0, 1/10, 1/10, 500⟩).1.total_covered_by_insurance =
      (estimate_cost ⟨300, 300, 300, 300⟩ ⟨0, 1/10, 1/10, 500⟩).1.provider_covered +
        (estimate_cost ⟨300, 300, 300, 300⟩ ⟨0, 1/10, 1/10, 500⟩).1.facility_covered +
        (estimate_cost ⟨300, 300, 300, 300⟩ ⟨0, 1/10, 1/10, 500⟩).1.imaging_covered +
        (estimate_cost ⟨300, 300, 300, 300⟩ ⟨0, 1/10, 1/10, 500⟩).1.anesthesia_covered ∧
    (estimate_cost ⟨300, 300, 300, 300⟩ ⟨0, 1/10, 1/10, 500⟩).1.total_out_of_pocket = 500 :=
  aggregation_cap 300 300 300 300 500 (by norm_num) (by norm_num) (by norm_num)
    (by norm_num) (by norm_num)

/-- **C6.** End-to-end example: fees `[500, 300, 200, 100]`, remaining
deductible `200`, rates `1/10` each, out-of-pocket max `500` produce per-item
(applied, covered, oop) of `(200, 60, 240)`, `(0, 60, 240)`, `(0, 40, 160)`,
`(0, 20, 80)` and totals applied `200`, covered `180`,
out-of-pocket `min 720 500 = 500`, with the deductible pool ending at `0`. -/
theorem end_to_end_example :
    estimate_cost ⟨500, 300, 200, 100⟩ ⟨200, 1/10, 1/10, 500⟩ =
      (⟨200, 0, 0, 0, 60, 60, 40, 20, 240, 240, 160, 80, 200, 180, 500⟩, 0) := by
  norm_num [estimate_cost, apply_deductible, calculate_insurance_coverage,
    Prod.ext_iff, Breakdown.mk.injEq]

/-- **C7.** The rate sum is not clamped: there is a positive residual cost and
rates each in `[0,1]` whose sum exceeds 1 for which
`calculate_insurance_coverage` returns a negative patient out-of-pocket. -/
theorem uncapped_rates_negative_out_of_pocket :
    ∃ residual co_pay co_insurance : ℚ, 0 < residual ∧
      0 ≤ co_pay ∧ co_pay ≤ 1 ∧ 0 ≤ co_insurance ∧ co_insurance ≤ 1 ∧
      1 < co_pay + co_insurance ∧
      (calculate_insurance_coverage co_pay co_insurance residual).2 < 0 :=
  ⟨100, 8/10, 8/10, by norm_num [calculate_insurance_coverage]⟩

/-- **C8.** The pipeline is deterministic and idempotent: the press handler's
output does not depend on the stale value of the module-level
`remaining_deductible` variable, and a second press run from the state left by
the first produces the identical breakdown. -/
theorem estimate_press_idempotent (s1 s2 : ℚ) (fees : Fees) (plan : Plan) :
    estimate_press s1 fees plan = estimate_press s2 fees plan ∧
    (estimate_press (estimate_press s1 fees plan).2 fees plan).1 =
      (estimate_press s1 fees plan).1 :=
  ⟨rfl, rfl⟩

/-- **C9.** `apply_deductible` is monotone in the pool: for `cost ≥ 0` and
`rd ≥ 0` the new pool lies in `[0, rd]` and the applied amount in `[0, cost]`;
consequently the pool threaded through the four calls of the pipeline never
grows, ending in `[0, deductible_remaining]`. -/
theorem apply_deductible_monotone (cost rd : ℚ) (fees : Fees) (plan : Plan)
    (hc : 0 ≤ cost) (hd : 0 ≤ rd)
    (hfp : 0 ≤ fees.provider) (hff : 0 ≤ fees.facility)
    (hfi : 0 ≤ fees.imaging) (hfa : 0 ≤ fees.anesthesia)
    (hpd : 0 ≤ plan.deductible_remaining) :
    (0 ≤ (apply_deductible cost rd).2.2 ∧ (apply_deductible cost rd).2.2 ≤ rd ∧
      0 ≤ (apply_deductible cost rd).1 ∧ (apply_deductible cost rd).1 ≤ cost) ∧
    (0 ≤ (estimate_cost fees plan).2 ∧
      (estimate_cost fees plan).2 ≤ plan.deductible_remaining) := by
  refine ⟨apply_deductible_pool_bounds cost rd hc hd, ?_⟩
  simp only [estimate_cost]
  obtain ⟨h10, h1le, -, -⟩ :=
    apply_deductible_pool_bounds fees.provider plan.deductible_remaining hfp hpd
  obtain ⟨h20, h2le, -, -⟩ := apply_deductible_pool_bounds fees.facility _ hff h10
  obtain ⟨h30, h3le, -, -⟩ := apply_deductible_pool_bounds fees.imaging _ hfi h20
  obtain ⟨h40, h4le, -, -⟩ := apply_deductible_pool_bounds fees.anesthesia _ hfa h30
  exact ⟨h40, by linarith⟩

/-- Witness for `apply_deductible_monotone` at `cost = 7`, `rd = 3`, the
example fees and plan. -/
theorem apply_deductible_monotone_witness :
    (0 ≤ (apply_deductible 7 3).2.2 ∧ (apply_deductible 7 3).2.2 ≤ 3 ∧
      0 ≤ (apply_deductible 7 3).1 ∧ (apply_deductible 7 3).1 ≤ 7) ∧
    (0 ≤ (estimate_cost ⟨500, 300, 200, 100⟩ ⟨200, 1/10, 1/10, 500⟩).2 ∧
      (estimate_cost ⟨500, 300, 200, 100⟩ ⟨200, 1/10, 1/10, 500⟩).2 ≤
        (Plan.mk 200 (1/10) (1/10) 500).deductible_remaining) :=
  apply_deductible_monotone 7 3 ⟨500, 300, 200, 100⟩ ⟨200, 1/10, 1/10, 500⟩
    (by norm_num) (by norm_num) (by decide) (by decide) (by decide) (by decide) (by decide)

/-- **C10.** `calculate_insurance_coverage` is additive in its residual-cost
argument: for `a, b ≥ 0` and fixed rates, coverage of `a + b` is the
componentwise sum of the coverages of `a` and `b`; consequently the uncapped
total covered by insurance equals `(co_pay + co_insurance)` times the total
residual (total fees minus total applied to deductible), independent of how
the residual splits across categories. -/
theorem calculate_insurance_coverage_additive (co_pay co_insurance x y : ℚ)
    (fees : Fees) (plan : Plan) (hx : 0 ≤ x) (hy : 0 ≤ y) :
    calculate_insurance_coverage co_pay co_insurance (x + y) =
      ((calculate_insurance_coverage co_pay co_insurance x).1 +
        (calculate_insurance_coverage co_pay co_insurance y).1,
       (calculate_insurance_coverage co_pay co_insurance x).2 +
        (calculate_insurance_coverage co_pay co_insurance y).2) ∧
    (estimate_cost fees plan).1.total_covered_by_insurance =
      (plan.co_pay + plan.co_insurance) *
        ((fees.provider + fees.facility + fees.imaging + fees.anesthesia) -
          (estimate_cost fees plan).1.total_applied_to_deductible) := by
  constructor
  · unfold calculate_insurance_coverage
    simp only [Prod.mk.injEq]
    constructor <;> ring
  · simp only [estimate_cost, calculate_insurance_coverage, apply_deductible]
    split_ifs <;> ring

/-- Witness for `calculate_insurance_coverage_additive` at rates `1/10`,
`x = 2`, `y = 5`, the example fees and plan. -/
theorem calculate_insurance_coverage_additive_witness :
    calculate_insurance_coverage (1/10) (1/10) (2 + 5) =
      ((calculate_insurance_coverage (1/10) (1/10) 2).1 +
        (calculate_insurance_coverage (1/10) (1/10) 5).1,
       (calculate_insurance_coverage (1/10) (1/10) 2).2 +
        (calculate_insurance_coverage ((1:ℚ)/10) (1/10) 5).2) ∧
    (estimate_cost ⟨500, 300, 200, 100⟩ ⟨200, 1/10, 1/10, 500⟩).1.total_covered_by_insurance =
      ((Plan.mk 200 (1/10) (1/10) 500).co_pay + (Plan.mk 200 (1/10) (1/10) 500).co_insurance) *
        (((Fees.mk 500 300 200 100).provider + (Fees.mk 500 300 200 100).facility +
          (Fees.mk 500 300 200 100).imaging + (Fees.mk 500 300 200 100).anesthesia) -
          (estimate_cost ⟨500, 300, 200, 100⟩
            ⟨200, 1/10, 1/10, 500⟩).1.total_applied_to_deductible) :=
  calculate_insurance_coverage_additive (1/10) (1/10) 2 5
    ⟨500, 300, 200, 100⟩ ⟨200, 1/10, 1/10, 500⟩ (by norm_num) (by norm_num)

end AppTestPoc
